import Mathlib

/-!
Verification development for the StripeWise repository: a conversational
financial-coaching agent (src/Tech-Xplore-2025/src/chat.ts), an MCP tool
server (src/Tech-Xplore-2025/src/mcp.ts) and a chat UI (src/app front-end).
The definitions below are a shallow embedding of the TypeScript source;
asynchronous executors become pure functions over explicit oracles
(HTTP fetch, language model), thrown JS errors become `Except.error`,
and JS object state becomes explicit record passing.
-/

set_option maxRecDepth 4000

/-- Shallow embedding of a JSON value (JS objects passed between the tools,
the backend API and the model). -/
inductive Json where
  | null : Json
  | bool : Bool → Json
  | num : Int → Json
  | str : String → Json
  | arr : List Json → Json
  | obj : List (String × Json) → Json

mutual

/-- Model of the JS builtin JSON.stringify (whitespace of the pretty
printer is not reproduced; no claim depends on it). -/
def Json.stringify : Json → String
  | .null => "null"
  | .bool b => cond b "true" "false"
  | .num n => toString n
  | .str s => "\"" ++ s ++ "\""
  | .arr xs => "[" ++ Json.stringifyList xs ++ "]"
  | .obj fs => "\x7b" ++ Json.stringifyFields fs ++ "\x7d"

def Json.stringifyList : List Json → String
  | [] => ""
  | [x] => Json.stringify x
  | x :: y :: xs => Json.stringify x ++ "," ++ Json.stringifyList (y :: xs)

def Json.stringifyFields : List (String × Json) → String
  | [] => ""
  | [(k, v)] => "\"" ++ k ++ "\":" ++ Json.stringify v
  | (k, v) :: f :: fs =>
      "\"" ++ k ++ "\":" ++ Json.stringify v ++ "," ++ Json.stringifyFields (f :: fs)

end

/-- HTTP methods used by callBackendAPI (mcp.ts line 38: method is GET or POST). -/
inductive HttpMethod where
  | GET : HttpMethod
  | POST : HttpMethod
deriving DecidableEq

/-- A completed HTTP exchange as seen by the caller of fetch: the ok flag,
status code, status text and the parsed JSON body (response.json()). -/
structure HttpResponse where
  ok : Bool
  status : Nat
  statusText : String
  json : Json

/-- The fetch oracle: the external backend mock API, mapping a request
(endpoint, method, optional body) to the completed response. -/
def FetchOracle : Type := String → HttpMethod → Option Json → HttpResponse

/-- Embedding of callBackendAPI (mcp.ts lines 38-62): perform the fetch; if
response.ok is false throw an Error whose message interpolates the status
and status text, otherwise return the parsed JSON body. -/
def callBackendAPI (fetch : FetchOracle) (endpoint : String)
    (method : HttpMethod) (body : Option Json) : Except String Json :=
  let response := fetch endpoint method body
  if !response.ok then
    .error ("API call failed: " ++ toString response.status ++ " " ++ response.statusText)
  else
    .ok response.json

/-- One entry of a tool result content array: \x7b type: "text", text \x7d. -/
structure ContentPart where
  type : String
  text : String
deriving DecidableEq

/-- A tool executor result: \x7b content: [...] \x7d as returned by every
tool in chat.ts and mcp.ts. -/
structure ToolResult where
  content : List ContentPart
deriving DecidableEq

/-- Risk tolerance enum shared by chat.ts and mcp.ts tool schemas. -/
inductive RiskTolerance where
  | conservative : RiskTolerance
  | moderate : RiskTolerance
  | aggressive : RiskTolerance
deriving DecidableEq

/-- JS truthiness of an optional number: present and nonzero.
(NaN does not arise in the embedded integer model.) -/
def truthyNum : Option Int → Bool
  | none => false
  | some n => n != 0

/-- JS truthiness of an optional string: present and nonempty. -/
def truthyStr : Option String → Bool
  | none => false
  | some s => s != ""

/-- Embedding of the getESGInvestments executor (mcp.ts lines 322-338):
call the backend at /api/esg-investments inside try/catch; on success
return the stringified data, on a thrown error return the text
"Unable to fetch ESG investments: " followed by the error message.
The two schema arguments (investmentAmount, riskProfile) are destructured
by the source but never used in the body. -/
def getESGInvestments (fetch : FetchOracle)
    (_investmentAmount : Option Int) (_riskProfile : Option RiskTolerance) : ToolResult :=
  match callBackendAPI fetch "/api/esg-investments" .GET none with
  | .ok esgData => ⟨[⟨"text", Json.stringify esgData⟩]⟩
  | .error e => ⟨[⟨"text", "Unable to fetch ESG investments: " ++ e⟩]⟩

/-- The language model oracle behind generateText (the ai SDK): from a
system prompt and the single user message content to either the generated
text or a thrown error. -/
def GenOracle : Type := String → String → Except String String

/-- Embedding of the generateBudgetPlan executor (mcp.ts lines 117-144).
The body computes the young-professional flag, builds the prompts and
awaits generateText with NO try/catch around it, so a thrown model error
propagates to the caller; on success it returns the generated text. -/
def generateBudgetPlan (generateText : GenOracle)
    (monthlyIncome : Int) (financialGoals : List String)
    (currentAge retirementAge : Option Int) : Except String ToolResult :=
  let isYoungProfessional := truthyNum currentAge && currentAge.getD 0 < 30
  let investecContext :=
    if isYoungProfessional then
      "This person qualifies for Investec\x27s Young Professional benefits including: reduced R320 monthly account fee, innovative home loan with 2-year interest-only payments, vehicle finance at prime -1%, R25,000 complimentary life insurance, tax-free unit trusts with R1,000 monthly debit orders, and no-fee savings accounts."
    else
      "This person should consider Investec\x27s full Private Banking suite and wealth management services."
  match generateText
      ("You are an expert Investec Private Banking financial advisor specializing in creating personalized budget plans for professionals in South Africa. " ++ investecContext ++ " Provide practical, actionable advice that leverages Investec\x27s specific products and benefits.")
      ("Create a detailed Investec-focused budget plan for someone with monthly income of R" ++ toString monthlyIncome ++ ". Their financial goals are: " ++ String.intercalate ", " financialGoals ++ ". " ++ (if truthyNum currentAge then "They are " ++ toString (currentAge.getD 0) ++ " years old" else "") ++ " " ++ (if truthyNum retirementAge then "and want to retire at " ++ toString (retirementAge.getD 0) else "") ++ ". Include specific rand amounts, percentages, and recommend appropriate Investec products. " ++ (if isYoungProfessional then "Emphasize young professional benefits and how to maximize them." else "Focus on wealth optimization strategies.")) with
  | .error e => .error e
  | .ok text => .ok ⟨[⟨"text", text⟩]⟩

/-- Goal categories of the trackFinancialGoals schema (mcp.ts line 205). -/
inductive GoalType where
  | emergency_fund : GoalType
  | house_deposit : GoalType
  | retirement : GoalType
  | vacation : GoalType
  | debt_payoff : GoalType
  | other : GoalType
deriving DecidableEq

/-- goalType.replace(underscore, space) as interpolated into the prompt. -/
def GoalType.display : GoalType → String
  | .emergency_fund => "emergency fund"
  | .house_deposit => "house deposit"
  | .retirement => "retirement"
  | .vacation => "vacation"
  | .debt_payoff => "debt payoff"
  | .other => "other"

/-- Math.ceil(a / b) for positive b, on the embedded integers. -/
def ceilDiv (a b : Int) : Int := -((-a).ediv b)

/-- Number formatting with one decimal place from a value given in tenths
(models toFixed(1); JS float rounding is approximated by integer division,
which no claim depends on). -/
def toFixed1 (tenths : Int) : String :=
  toString (tenths.ediv 10) ++ "." ++ toString ((tenths.emod 10).natAbs)

/-- Embedding of the trackFinancialGoals executor (mcp.ts lines 201-227).
Computes remaining amount, months to goal and progress percentage, then
awaits generateText with NO try/catch, so a thrown model error propagates. -/
def trackFinancialGoals (generateText : GenOracle) (goalType : GoalType)
    (targetAmount currentAmount monthlyContribution : Int) : Except String ToolResult :=
  let remaining := targetAmount - currentAmount
  let monthsToGoal := ceilDiv remaining monthlyContribution
  let progressPercentage := toFixed1 (currentAmount * 1000 / targetAmount)
  match generateText
      "You are a motivational financial coach. Provide encouraging and practical advice for reaching financial goals."
      ("A user is saving for " ++ goalType.display ++ ". Target: R" ++ toString targetAmount ++ ", Current: R" ++ toString currentAmount ++ " (" ++ progressPercentage ++ "% complete), Monthly contribution: R" ++ toString monthlyContribution ++ ". They need R" ++ toString remaining ++ " more and will reach their goal in " ++ toString monthsToGoal ++ " months. Provide encouraging feedback and tips to stay on track.") with
  | .error e => .error e
  | .ok text => .ok ⟨[⟨"text", text⟩]⟩

/-- The userProfile record of ChatAgentState (chat.ts lines 44-50); every
field is optional exactly as in the interface. -/
structure UserProfile where
  age : Option Int := none
  profession : Option String := none
  monthlyIncome : Option Int := none
  financialGoals : Option (List String) := none
  riskTolerance : Option RiskTolerance := none
deriving DecidableEq

/-- ChatAgentState (chat.ts lines 42-52): userName, userProfile and the
isProfileComplete flag, all optional. -/
structure ChatAgentState where
  userName : Option String := none
  userProfile : Option UserProfile := none
  isProfileComplete : Option Bool := none
deriving DecidableEq

/-- initialState of the Chat agent (chat.ts lines 64-66). -/
def initialState : ChatAgentState := { isProfileComplete := some false }

/-- Arguments of the local updateUserProfile tool (chat.ts lines 102-108);
every parameter is optional in the zod schema. -/
structure UpdateProfileArgs where
  age : Option Int := none
  profession : Option String := none
  monthlyIncome : Option Int := none
  financialGoals : Option (List String) := none
  riskTolerance : Option RiskTolerance := none
deriving DecidableEq

/-- The object-spread merge of chat.ts lines 111-118: each conditional
spread `...(x && \x7b x \x7d)` includes the field exactly when the argument
is JS-truthy (nonzero number, nonempty string; an array or enum value is
always truthy when present), otherwise the previous field survives. -/
def mergeProfile (prev : UserProfile) (args : UpdateProfileArgs) : UserProfile :=
  { age := if truthyNum args.age then args.age else prev.age
    profession := if truthyStr args.profession then args.profession else prev.profession
    monthlyIncome := if truthyNum args.monthlyIncome then args.monthlyIncome else prev.monthlyIncome
    financialGoals := if args.financialGoals.isSome then args.financialGoals else prev.financialGoals
    riskTolerance := if args.riskTolerance.isSome then args.riskTolerance else prev.riskTolerance }

/-- The completeness computation of chat.ts lines 122-127:
!!(profile.age && profile.monthlyIncome && profile.financialGoals &&
profile.financialGoals.length > 0). -/
def computeProfileComplete (profile : UserProfile) : Bool :=
  truthyNum profile.age && truthyNum profile.monthlyIncome &&
    (match profile.financialGoals with
     | none => false
     | some goals => goals.length > 0)

/-- Embedding of the local updateUserProfile executor (chat.ts lines
100-136): merge the arguments into this.state.userProfile (spreading an
absent profile behaves as the empty object, i.e. the all-none record),
recompute isProfileComplete, and return the confirmation text. -/
def updateUserProfile (state : ChatAgentState) (args : UpdateProfileArgs) :
    ChatAgentState × ToolResult :=
  let profile := mergeProfile (state.userProfile.getD {}) args
  let complete := computeProfileComplete profile
  ({ state with userProfile := some profile, isProfileComplete := some complete },
   ⟨[⟨"text", "Profile updated successfully! Profile complete: " ++
       (cond complete "true" "false")⟩]⟩)

/-- Rendering of JSON.stringify(profile, null, 2) in getUserInfo; only the
present fields are printed (exact whitespace is not reproduced, no claim
depends on the text). -/
def renderProfile (profile : UserProfile) : String :=
  Json.stringify (Json.obj
    ((match profile.age with | some a => [("age", Json.num a)] | none => []) ++
     (match profile.profession with | some p => [("profession", Json.str p)] | none => []) ++
     (match profile.monthlyIncome with | some m => [("monthlyIncome", Json.num m)] | none => []) ++
     (match profile.financialGoals with
      | some gs => [("financialGoals", Json.arr (gs.map Json.str))] | none => []) ++
     (match profile.riskTolerance with
      | some .conservative => [("riskTolerance", Json.str "conservative")]
      | some .moderate => [("riskTolerance", Json.str "moderate")]
      | some .aggressive => [("riskTolerance", Json.str "aggressive")]
      | none => [])))

/-- Embedding of the local getUserInfo executor (chat.ts lines 84-98): it
only reads this.state (userName, userProfile, isProfileComplete) and
returns a report text; it performs no assignment to the state. -/
def getUserInfo (state : ChatAgentState) : ChatAgentState × ToolResult :=
  let profile := state.userProfile.getD {}
  (state,
   ⟨[⟨"text", "User: " ++ state.userName.getD "unknown" ++ "\nProfile: " ++
       renderProfile profile ++ "\nProfile Complete: " ++
       (cond (state.isProfileComplete.getD false) "true" "false")⟩]⟩)

/-- Embedding of the local setUserName executor (chat.ts lines 138-152):
assign this.state.userName = name and return the greeting text. -/
def setUserName (state : ChatAgentState) (name : String) : ChatAgentState × ToolResult :=
  ({ state with userName := some name },
   ⟨[⟨"text", "Hello " ++ name ++ "! I\x27m your personal financial coach from Investec. Let\x27s work together to achieve your financial goals!"⟩]⟩)

/-- Origin of a tool definition, to observe which definition survives the
merge of the local chat-agent tools with the MCP-discovered tools. -/
inductive ToolOrigin where
  | chatAgent : ToolOrigin
  | mcpServer : ToolOrigin
deriving DecidableEq

/-- Names of the three locally defined chat-agent tools
(chat.ts line 156: chatAgentTools). -/
def chatAgentToolNames : List String := ["getUserInfo", "updateUserProfile", "setUserName"]

/-- Names of the tools registered by the MCP server, in registration order
(mcp.ts, the server.tool calls of MyMCP.init). -/
def mcpServerToolNames : List String :=
  ["analyzeSpendingPatterns", "generateBudgetPlan", "getInvestmentRecommendations",
   "trackFinancialGoals", "getPersonalizedFinancialTips", "getFinancialAdvice",
   "getTransactions", "getESGInvestments", "getCarbonFootprint", "getSustainabilityTips",
   "testAPIConnection", "getInvestecAccountBenefits", "getInvestecLoanOptions",
   "getInvestecInsuranceOptions", "getSavingsStrategy", "getPersonalizedGuidance",
   "identifyFinancialPersona", "updateUserProfile", "getBeginnerGuidance",
   "getYoungProfessionalLifestyleRewards", "generateSpendingDashboard",
   "generateInvestmentDashboard", "generateBudgetProgressDashboard",
   "generateFinancialHealthDashboard"]

/-- Embedding of chat.ts lines 159-162: a JS object is a finite map from
names to definitions and `allTools = \x7b ...chatAgentTools, ...mcpAgentTools \x7d`
is its right-biased spread union: a key present in mcpAgentTools takes the
mcpAgentTools definition, otherwise the chatAgentTools definition is kept.
The merge is total: no collision check is performed and no error is raised. -/
def allTools (chatAgentTools mcpAgentTools : List (String × ToolOrigin))
    (name : String) : Option ToolOrigin :=
  match mcpAgentTools.lookup name with
  | some d => some d
  | none => chatAgentTools.lookup name

/-- The concrete local tool map of chat.ts line 156, keyed by origin. -/
def chatAgentToolMap : List (String × ToolOrigin) :=
  chatAgentToolNames.map (fun n => (n, ToolOrigin.chatAgent))

/-- The concrete MCP-discovered tool map, keyed by origin. -/
def mcpServerToolMap : List (String × ToolOrigin) :=
  mcpServerToolNames.map (fun n => (n, ToolOrigin.mcpServer))

/-- State of a tool invocation part in the transcript (spec section 3:
call-requested / result-available; the UI in the app front-end tests
state === "call"). -/
inductive ToolInvocationState where
  | call : ToolInvocationState
  | result : ToolInvocationState
deriving DecidableEq

/-- A tool-invocation transcript part: callId, tool name, arguments, state
and the result once resolved. -/
structure ToolInvocation where
  toolCallId : String
  toolName : String
  arguments : Json
  state : ToolInvocationState
  result : Option ToolResult

/-- One part of a transcript Message: free text or a tool invocation. -/
inductive MessagePart where
  | text : String → MessagePart
  | toolInvocation : ToolInvocation → MessagePart

/-- Message roles of the ai SDK transcript. -/
inductive Role where
  | user : Role
  | assistant : Role
  | system : Role
  | data : Role
deriving DecidableEq

/-- A transcript entry: role plus ordered parts. -/
structure Message where
  role : Role
  parts : List MessagePart

/-- Embedding of pendingToolCallConfirmation (the chat UI component,
lines 67-74): some message has a part of type tool-invocation whose state
is "call" and whose tool name is in TOOLS_REQURING_CONFIRMATION (passed
here as confirmList, since src/tools.ts is not among the sources). -/
def pendingToolCallConfirmation (confirmList : List String)
    (messages : List Message) : Bool :=
  messages.any fun m =>
    m.parts.any fun part =>
      match part with
      | .toolInvocation ti =>
          ti.state = ToolInvocationState.call && confirmList.contains ti.toolName
      | .text _ => false

/-- The disabled prop of the chat input Textarea (UI component line 246):
disabled exactly when a confirmation is pending. -/
def textareaDisabled (confirmList : List String) (messages : List Message) : Bool :=
  pendingToolCallConfirmation confirmList messages

/-- The disabled prop of the send button (UI component line 284):
pendingToolCallConfirmation || !agentInput.trim(). -/
def sendButtonDisabled (confirmList : List String) (messages : List Message)
    (agentInput : String) : Bool :=
  pendingToolCallConfirmation confirmList messages || agentInput.trim == ""

/-- A registered tool as the Reconciler sees it: the human-approval flag
and the executor from arguments to a result payload. -/
structure ToolSpec where
  requiresConfirmation : Bool
  execute : Json → ToolResult

/-- The tool registry: names mapped to tool specs (spec section 4.1). -/
def ToolRegistry : Type := List (String × ToolSpec)

/-- Reconciler-internal fatal error (spec section 4.2): a tool name with no
registry entry. -/
inductive ReconcileError where
  | unknownTool : String → ReconcileError

/-- Outcome of one Reconciler pass: the updated parts or messages, the
names of the tools whose executors were invoked by this pass, and the
count of calls still requiring human input. -/
structure ReconcileOut (α : Type) where
  updated : α
  executed : List String
  pendingHuman : Nat

/-- Modelled from the spec: src/utils.ts (processToolCalls, imported by
chat.ts line 15) is not among the sources, so the Reconciler step on one
transcript part follows spec section 4.2 steps 1-5: a part whose state is
call-requested is pending; a pending call of a confirmation-required tool
is left unresolved and counted; a pending auto-runnable call is executed
and its result attached in place with state result-available; a part
already carrying a result (including an externally supplied one) is left
untouched; an unregistered tool name is the fatal UnknownTool error. -/
def reconcilePart (registry : ToolRegistry) :
    MessagePart → Except ReconcileError (ReconcileOut MessagePart)
  | .text s => .ok ⟨.text s, [], 0⟩
  | .toolInvocation ti =>
    match ti.state with
    | .result => .ok ⟨.toolInvocation ti, [], 0⟩
    | .call =>
      match registry.lookup ti.toolName with
      | none => .error (.unknownTool ti.toolName)
      | some spec =>
        if spec.requiresConfirmation then
          .ok ⟨.toolInvocation ti, [], 1⟩
        else
          .ok ⟨.toolInvocation { ti with
                 state := ToolInvocationState.result,
                 result := some (spec.execute ti.arguments) },
               [ti.toolName], 0⟩

/-- Modelled from the spec: the Reconciler pass over the ordered parts of
one message, resolving calls in transcript order (spec section 4.2 step 3:
results are attached at fixed positions, never reordered). -/
def reconcileParts (registry : ToolRegistry) :
    List MessagePart → Except ReconcileError (ReconcileOut (List MessagePart))
  | [] => .ok ⟨[], [], 0⟩
  | p :: ps =>
    match reconcilePart registry p with
    | .error e => .error e
    | .ok r1 =>
      match reconcileParts registry ps with
      | .error e => .error e
      | .ok r2 => .ok ⟨r1.updated :: r2.updated, r1.executed ++ r2.executed,
                       r1.pendingHuman + r2.pendingHuman⟩

/-- Modelled from the spec: the Reconciler pass over one Message. -/
def reconcileMessage (registry : ToolRegistry) (m : Message) :
    Except ReconcileError (ReconcileOut Message) :=
  match reconcileParts registry m.parts with
  | .error e => .error e
  | .ok r => .ok ⟨{ m with parts := r.updated }, r.executed, r.pendingHuman⟩

/-- Modelled from the spec: processToolCalls, the full Reconciler pass of
spec section 4.2 (src/utils.ts is not among the sources): walk the
transcript in order, resolve every pending auto-runnable call, leave
confirmation-required calls unresolved, and return the updated transcript
with the count of calls still requiring human input. -/
def processToolCalls (registry : ToolRegistry) :
    List Message → Except ReconcileError (ReconcileOut (List Message))
  | [] => .ok ⟨[], [], 0⟩
  | m :: ms =>
    match reconcileMessage registry m with
    | .error e => .error e
    | .ok r1 =>
      match processToolCalls registry ms with
      | .error e => .error e
      | .ok r2 => .ok ⟨r1.updated :: r2.updated, r1.executed ++ r2.executed,
                       r1.pendingHuman + r2.pendingHuman⟩

/-- Whether a message contains any tool-call part (spec section 4.3:
ModelResponded goes to ToolCallsPending exactly then). -/
def hasToolCalls (m : Message) : Bool :=
  m.parts.any fun p =>
    match p with
    | .toolInvocation _ => true
    | .text _ => false

/-- The language model oracle of the Turn Driver: from the replayed
transcript to the next assistant message. -/
def ModelOracle : Type := List Message → Message

/-- The maxSteps configuration of the streamText call (chat.ts line 214). -/
def maxStepsChatAgent : Nat := 100

/-- The maxSteps configuration of useAgentChat in the chat UI (line 58). -/
def maxStepsUseAgentChat : Nat := 10

/-- Modelled from the spec: the Model Turn Driver loop of spec section 4.3
(the loop itself lives in the external ai SDK streamText, configured with
maxSteps from chat.ts; only its configuration is in the sources). One step
submits the transcript to the oracle and appends the assistant message; if
it contains tool calls the Reconciler runs, and the driver loops back only
when no needsHuman call remains, consuming one unit of the step budget per
model request; with the budget exhausted, or with a pending confirmation
(suspension), or with a plain text reply (Done), the loop stops. The
returned number counts the model requests issued. -/
def driveTurn (oracle : ModelOracle) (registry : ToolRegistry) :
    Nat → List Message → Except ReconcileError (List Message × Nat)
  | 0, transcript => .ok (transcript, 0)
  | fuel + 1, transcript =>
    let m := oracle transcript
    let extended := transcript ++ [m]
    if hasToolCalls m then
      match processToolCalls registry extended with
      | .error e => .error e
      | .ok r =>
        if r.pendingHuman = 0 then
          match driveTurn oracle registry fuel r.updated with
          | .error e => .error e
          | .ok (final, n) => .ok (final, n + 1)
        else
          .ok (r.updated, 1)
    else
      .ok (extended, 1)

/-- A registry whose confirmation flags are derived from tool identity:
the flag of a tool is membership of its name in the confirmation-required
list (spec section 3: requiresConfirmation is derived from the tool
identity, not stored per call). -/
def mkRegistry (confirmList : List String)
    (tools : List (String × (Json → ToolResult))) : ToolRegistry :=
  tools.map fun t => (t.1, ⟨confirmList.contains t.1, t.2⟩)

/-- The registry of the spec scenario for a failing ESG fetch: the single
tool getESGInvestments, auto-runnable (requiresConfirmation = false); the
executor ignores its arguments exactly as the source body does. -/
def esgRegistry (fetch : FetchOracle) : ToolRegistry :=
  [("getESGInvestments", ⟨false, fun _ => getESGInvestments fetch none none⟩)]

/-- The spec scenario transcript: one assistant message holding one pending
call of getESGInvestments. -/
def esgScenario : List Message :=
  [⟨Role.assistant,
    [MessagePart.toolInvocation
      ⟨"call-esg-1", "getESGInvestments", Json.obj [], ToolInvocationState.call, none⟩]⟩]

/-- A fetch oracle whose every exchange completes with HTTP 500. -/
def witFailFetch : FetchOracle :=
  fun _ _ _ => ⟨false, 500, "Internal Server Error", Json.null⟩

/-- A fetch oracle whose every exchange completes with HTTP 200 and a null
JSON body. -/
def witOkFetch : FetchOracle :=
  fun _ _ _ => ⟨true, 200, "OK", Json.null⟩

/-- A model oracle whose generateText call always throws. -/
def witFailGen : GenOracle := fun _ _ => .error "model unavailable"

/-- A confirmation-required list with one name, for concrete instances. -/
def witConfirmList : List String := ["transferFunds"]

/-- Two concrete tools: one on the confirmation list, one auto-runnable. -/
def witTools : List (String × (Json → ToolResult)) :=
  [("transferFunds", fun _ => ⟨[⟨"text", "done"⟩]⟩),
   ("getUserInfo", fun _ => ⟨[⟨"text", "info"⟩]⟩)]

/-- A transcript with one pending confirmation-required call. -/
def witMessages : List Message :=
  [⟨Role.assistant,
    [MessagePart.toolInvocation
      ⟨"call-1", "transferFunds", Json.obj [], ToolInvocationState.call, none⟩]⟩]

/-- A transcript with one pending auto-runnable call. -/
def witAutoMessages : List Message :=
  [⟨Role.assistant,
    [MessagePart.toolInvocation
      ⟨"call-2", "getUserInfo", Json.obj [], ToolInvocationState.call, none⟩]⟩]

/-- The transcript witAutoMessages after the auto-runnable call resolves. -/
def witAutoResolved : List Message :=
  [⟨Role.assistant,
    [MessagePart.toolInvocation
      ⟨"call-2", "getUserInfo", Json.obj [], ToolInvocationState.result,
       some ⟨[⟨"text", "info"⟩]⟩⟩]⟩]

/-- A model oracle that always replies with plain text and no tool calls. -/
def witTextOracle : ModelOracle :=
  fun _ => ⟨Role.assistant, [MessagePart.text "hi"]⟩

/-- Concrete profile arguments carrying the falsy age 0 and an omitted
income, for frame-condition instances. -/
def witZeroArgs : UpdateProfileArgs := { age := some 0 }

theorem mkRegistry_flag (confirmList : List String)
    (tools : List (String × (Json → ToolResult))) (n : String) (spec : ToolSpec)
    (h : (mkRegistry confirmList tools).lookup n = some spec) :
    spec.requiresConfirmation = confirmList.contains n := by
  induction tools with
  | nil => simp [mkRegistry] at h
  | cons t ts ih =>
    simp only [mkRegistry, List.map, List.lookup] at h ih
    cases he : n == t.1 with
    | true =>
      rw [he] at h
      injection h with h
      rw [← h]
      rw [eq_of_beq he]
    | false =>
      rw [he] at h
      exact ih h

theorem reconcilePart_executed (registry : ToolRegistry) (p : MessagePart)
    (out : ReconcileOut MessagePart) (h : reconcilePart registry p = .ok out) :
    ∀ n ∈ out.executed,
      ∃ spec, registry.lookup n = some spec ∧ spec.requiresConfirmation = false := by
  cases p with
  | text s =>
    simp only [reconcilePart] at h
    injection h with h
    subst h
    simp
  | toolInvocation ti =>
    cases hst : ti.state with
    | result =>
      simp only [reconcilePart, hst] at h
      injection h with h
      subst h
      simp
    | call =>
      simp only [reconcilePart, hst] at h
      split at h
      · cases h
      · rename_i spec hlk
        split at h
        · injection h with h
          subst h
          simp
        · rename_i hrc
          simp only [Bool.not_eq_true] at hrc
          injection h with h
          subst h
          intro n hn
          simp only [List.mem_singleton] at hn
          subst hn
          exact ⟨spec, hlk, hrc⟩

theorem reconcileParts_executed (registry : ToolRegistry) (ps : List MessagePart)
    (out : ReconcileOut (List MessagePart))
    (h : reconcileParts registry ps = .ok out) :
    ∀ n ∈ out.executed,
      ∃ spec, registry.lookup n = some spec ∧ spec.requiresConfirmation = false := by
  induction ps generalizing out with
  | nil =>
    simp only [reconcileParts] at h
    injection h with h
    subst h
    simp
  | cons p ps ih =>
    simp only [reconcileParts] at h
    cases h1 : reconcilePart registry p with
    | error e => rw [h1] at h; cases h
    | ok r1 =>
      rw [h1] at h
      cases h2 : reconcileParts registry ps with
      | error e => rw [h2] at h; cases h
      | ok r2 =>
        rw [h2] at h
        injection h with h
        subst h
        intro n hn
        simp only [List.mem_append] at hn
        rcases hn with hn | hn
        · exact reconcilePart_executed registry p r1 h1 n hn
        · exact ih r2 h2 n hn

theorem reconcileMessage_executed (registry : ToolRegistry) (m : Message)
    (out : ReconcileOut Message) (h : reconcileMessage registry m = .ok out) :
    ∀ n ∈ out.executed,
      ∃ spec, registry.lookup n = some spec ∧ spec.requiresConfirmation = false := by
  simp only [reconcileMessage] at h
  cases h1 : reconcileParts registry m.parts with
  | error e => rw [h1] at h; cases h
  | ok r =>
    rw [h1] at h
    injection h with h
    subst h
    exact reconcileParts_executed registry m.parts r h1

theorem processToolCalls_executed (registry : ToolRegistry) (ms : List Message)
    (out : ReconcileOut (List Message))
    (h : processToolCalls registry ms = .ok out) :
    ∀ n ∈ out.executed,
      ∃ spec, registry.lookup n = some spec ∧ spec.requiresConfirmation = false := by
  induction ms generalizing out with
  | nil =>
    simp only [processToolCalls] at h
    injection h with h
    subst h
    simp
  | cons m ms ih =>
    simp only [processToolCalls] at h
    cases h1 : reconcileMessage registry m with
    | error e => rw [h1] at h; cases h
    | ok r1 =>
      rw [h1] at h
      cases h2 : processToolCalls registry ms with
      | error e => rw [h2] at h; cases h
      | ok r2 =>
        rw [h2] at h
        injection h with h
        subst h
        intro n hn
        simp only [List.mem_append] at hn
        rcases hn with hn | hn
        · exact reconcileMessage_executed registry m r1 h1 n hn
        · exact ih r2 h2 n hn

theorem reconcilePart_idem (registry : ToolRegistry) (p : MessagePart)
    (out : ReconcileOut MessagePart) (h : reconcilePart registry p = .ok out) :
    reconcilePart registry out.updated = .ok ⟨out.updated, [], out.pendingHuman⟩ := by
  cases p with
  | text s =>
    simp only [reconcilePart] at h
    injection h with h
    subst h
    rfl
  | toolInvocation ti =>
    cases hst : ti.state with
    | result =>
      simp only [reconcilePart, hst] at h
      injection h with h
      subst h
      simp [reconcilePart, hst]
    | call =>
      simp only [reconcilePart, hst] at h
      split at h
      · cases h
      · rename_i spec hlk
        split at h
        · rename_i hrc
          injection h with h
          subst h
          simp [reconcilePart, hst, hlk, hrc]
        · injection h with h
          subst h
          simp [reconcilePart]

theorem reconcileParts_idem (registry : ToolRegistry) (ps : List MessagePart)
    (out : ReconcileOut (List MessagePart))
    (h : reconcileParts registry ps = .ok out) :
    reconcileParts registry out.updated = .ok ⟨out.updated, [], out.pendingHuman⟩ := by
  induction ps generalizing out with
  | nil =>
    simp only [reconcileParts] at h
    injection h with h
    subst h
    rfl
  | cons p ps ih =>
    simp only [reconcileParts] at h
    cases h1 : reconcilePart registry p with
    | error e => rw [h1] at h; cases h
    | ok r1 =>
      rw [h1] at h
      cases h2 : reconcileParts registry ps with
      | error e => rw [h2] at h; cases h
      | ok r2 =>
        rw [h2] at h
        injection h with h
        subst h
        simp only [reconcileParts, reconcilePart_idem registry p r1 h1, ih r2 h2,
          List.nil_append]

theorem reconcileMessage_idem (registry : ToolRegistry) (m : Message)
    (out : ReconcileOut Message) (h : reconcileMessage registry m = .ok out) :
    reconcileMessage registry out.updated = .ok ⟨out.updated, [], out.pendingHuman⟩ := by
  simp only [reconcileMessage] at h
  cases h1 : reconcileParts registry m.parts with
  | error e => rw [h1] at h; cases h
  | ok r =>
    rw [h1] at h
    injection h with h
    subst h
    simp only [reconcileMessage, reconcileParts_idem registry m.parts r h1]

theorem driveTurn_le (oracle : ModelOracle) (registry : ToolRegistry) (fuel : Nat) :
    ∀ (t t' : List Message) (n : Nat),
      driveTurn oracle registry fuel t = .ok (t', n) → n ≤ fuel := by
  induction fuel with
  | zero =>
    intro t t' n h
    simp only [driveTurn] at h
    injection h with h
    injection h with h1 h2
    omega
  | succ fuel ih =>
    intro t t' n h
    simp only [driveTurn] at h
    split at h
    · split at h
      · cases h
      · split at h
        · split at h
          · cases h
          · rename_i heq
            injection h with h
            injection h with h1 h2
            have := ih _ _ _ heq
            omega
        · injection h with h
          injection h with h1 h2
          omega
    · injection h with h
      injection h with h1 h2
      omega

theorem driveTurn_done (oracle : ModelOracle) (registry : ToolRegistry) (fuel : Nat)
    (t : List Message) (h : hasToolCalls (oracle t) = false) :
    driveTurn oracle registry (fuel + 1) t = .ok (t ++ [oracle t], 1) := by
  simp [driveTurn, h]

theorem driveTurn_suspend (oracle : ModelOracle) (registry : ToolRegistry)
    (fuel : Nat) (t : List Message) (r : ReconcileOut (List Message))
    (h1 : hasToolCalls (oracle t) = true)
    (h2 : processToolCalls registry (t ++ [oracle t]) = .ok r)
    (h3 : r.pendingHuman ≠ 0) :
    driveTurn oracle registry (fuel + 1) t = .ok (r.updated, 1) := by
  simp [driveTurn, h1, h2, h3]

/-- Claim C8: for every call to callBackendAPI, when the completed HTTP
response has ok = true the parsed JSON body is returned; an error is thrown
exactly when ok = false, and the thrown message contains the HTTP status
code and the status text; no other outcome exists for a completed
exchange. -/
theorem callBackendAPI_spec (fetch : FetchOracle) (endpoint : String)
    (method : HttpMethod) (body : Option Json) (resp : HttpResponse)
    (hresp : resp = fetch endpoint method body) :
    (resp.ok = true → callBackendAPI fetch endpoint method body = .ok resp.json) ∧
    (resp.ok = false →
      callBackendAPI fetch endpoint method body =
        .error ("API call failed: " ++ toString resp.status ++ " " ++ resp.statusText) ∧
      (∃ a b, "API call failed: " ++ toString resp.status ++ " " ++ resp.statusText =
        a ++ toString resp.status ++ b) ∧
      (∃ a b, "API call failed: " ++ toString resp.status ++ " " ++ resp.statusText =
        a ++ resp.statusText ++ b)) ∧
    (∀ e, callBackendAPI fetch endpoint method body = .error e → resp.ok = false) := by
  subst hresp
  refine ⟨?_, ?_, ?_⟩
  · intro hok
    simp [callBackendAPI, hok]
  · intro hok
    refine ⟨by simp [callBackendAPI, hok], ⟨"API call failed: ", ?_⟩, ?_⟩
    · exact ⟨" " ++ (fetch endpoint method body).statusText, by simp [String.append_assoc]⟩
    · exact ⟨"API call failed: " ++ toString (fetch endpoint method body).status ++ " ", "",
        by simp [String.append_assoc]⟩
  · intro e he
    by_contra hok
    simp only [Bool.not_eq_false] at hok
    simp [callBackendAPI, hok] at he

/-- Claim C8 witness: a concrete successful exchange returns the parsed
body and a concrete 500 exchange throws with the status in the message. -/
theorem callBackendAPI_spec_witness :
    callBackendAPI witOkFetch "/api/transactions" HttpMethod.GET none = .ok Json.null ∧
    callBackendAPI witFailFetch "/api/transactions" HttpMethod.GET none =
      .error "API call failed: 500 Internal Server Error" :=
  ⟨(callBackendAPI_spec witOkFetch "/api/transactions" HttpMethod.GET none _ rfl).1 rfl,
   ((callBackendAPI_spec witFailFetch "/api/transactions" HttpMethod.GET none _ rfl).2.1 rfl).1⟩

/-- Claim C2: whenever the backend call of getESGInvestments fails (the
response has ok = false, e.g. HTTP 500), the executor does not throw: it
returns a text content result whose text starts with
"Unable to fetch ESG investments:" followed by the error message; run
through the Reconciler on the spec scenario transcript, the pending call
becomes resolved with no human gate, and the turn proceeds to a further
model completion. -/
theorem getESGInvestments_http_failure (fetch : FetchOracle)
    (investmentAmount : Option Int) (riskProfile : Option RiskTolerance)
    (h : (fetch "/api/esg-investments" HttpMethod.GET none).ok = false) :
    getESGInvestments fetch investmentAmount riskProfile =
      ⟨[⟨"text", "Unable to fetch ESG investments: " ++
          ("API call failed: " ++
           toString (fetch "/api/esg-investments" HttpMethod.GET none).status ++ " " ++
           (fetch "/api/esg-investments" HttpMethod.GET none).statusText)⟩]⟩ ∧
    (∀ part ∈ (getESGInvestments fetch investmentAmount riskProfile).content,
      ∃ rest, part.text = "Unable to fetch ESG investments:" ++ rest) ∧
    processToolCalls (esgRegistry fetch) esgScenario =
      .ok ⟨[⟨Role.assistant,
        [MessagePart.toolInvocation
          ⟨"call-esg-1", "getESGInvestments", Json.obj [], ToolInvocationState.result,
           some (getESGInvestments fetch none none)⟩]⟩],
        ["getESGInvestments"], 0⟩ ∧
    (∃ finalTranscript,
      driveTurn (fun _ => ⟨Role.assistant,
          [MessagePart.toolInvocation
            ⟨"call-esg-1", "getESGInvestments", Json.obj [], ToolInvocationState.call, none⟩]⟩)
        (esgRegistry fetch) 2 [] = .ok (finalTranscript, 2)) := by
  have hbody : getESGInvestments fetch investmentAmount riskProfile =
      ⟨[⟨"text", "Unable to fetch ESG investments: " ++
          ("API call failed: " ++
           toString (fetch "/api/esg-investments" HttpMethod.GET none).status ++ " " ++
           (fetch "/api/esg-investments" HttpMethod.GET none).statusText)⟩]⟩ := by
    simp [getESGInvestments, callBackendAPI, h]
  have hbody0 : getESGInvestments fetch none none =
      ⟨[⟨"text", "Unable to fetch ESG investments: " ++
          ("API call failed: " ++
           toString (fetch "/api/esg-investments" HttpMethod.GET none).status ++ " " ++
           (fetch "/api/esg-investments" HttpMethod.GET none).statusText)⟩]⟩ := by
    simp [getESGInvestments, callBackendAPI, h]
  refine ⟨hbody, ?_, ?_, ?_⟩
  · intro part hp
    rw [hbody] at hp
    simp only [List.mem_singleton] at hp
    subst hp
    refine ⟨" " ++ ("API call failed: " ++
      toString (fetch "/api/esg-investments" HttpMethod.GET none).status ++ " " ++
      (fetch "/api/esg-investments" HttpMethod.GET none).statusText), ?_⟩
    rw [show ("Unable to fetch ESG investments: " : String) =
      "Unable to fetch ESG investments:" ++ " " from rfl, String.append_assoc]
  · simp [processToolCalls, reconcileMessage, reconcileParts, reconcilePart,
      esgRegistry, esgScenario, List.lookup]
  · have hA : processToolCalls (esgRegistry fetch)
        [⟨Role.assistant,
          [MessagePart.toolInvocation
            ⟨"call-esg-1", "getESGInvestments", Json.obj [], ToolInvocationState.call, none⟩]⟩] =
        .ok ⟨[⟨Role.assistant,
          [MessagePart.toolInvocation
            ⟨"call-esg-1", "getESGInvestments", Json.obj [], ToolInvocationState.result,
             some (getESGInvestments fetch none none)⟩]⟩], ["getESGInvestments"], 0⟩ := by
      simp [processToolCalls, reconcileMessage, reconcileParts, reconcilePart,
        esgRegistry, List.lookup]
    have hB : processToolCalls (esgRegistry fetch)
        [⟨Role.assistant,
          [MessagePart.toolInvocation
            ⟨"call-esg-1", "getESGInvestments", Json.obj [], ToolInvocationState.result,
             some (getESGInvestments fetch none none)⟩]⟩,
         ⟨Role.assistant,
          [MessagePart.toolInvocation
            ⟨"call-esg-1", "getESGInvestments", Json.obj [], ToolInvocationState.call, none⟩]⟩] =
        .ok ⟨[⟨Role.assistant,
          [MessagePart.toolInvocation
            ⟨"call-esg-1", "getESGInvestments", Json.obj [], ToolInvocationState.result,
             some (getESGInvestments fetch none none)⟩]⟩,
          ⟨Role.assistant,
          [MessagePart.toolInvocation
            ⟨"call-esg-1", "getESGInvestments", Json.obj [], ToolInvocationState.result,
             some (getESGInvestments fetch none none)⟩]⟩], ["getESGInvestments"], 0⟩ := by
      simp [processToolCalls, reconcileMessage, reconcileParts, reconcilePart,
        esgRegistry, List.lookup]
    refine ⟨[⟨Role.assistant,
        [MessagePart.toolInvocation
          ⟨"call-esg-1", "getESGInvestments", Json.obj [], ToolInvocationState.result,
           some (getESGInvestments fetch none none)⟩]⟩,
      ⟨Role.assistant,
        [MessagePart.toolInvocation
          ⟨"call-esg-1", "getESGInvestments", Json.obj [], ToolInvocationState.result,
           some (getESGInvestments fetch none none)⟩]⟩], ?_⟩
    rw [show ((2 : Nat)) = 1 + 1 from rfl]
    simp [driveTurn, hA, hB, hasToolCalls]

/-- Claim C2 witness: with the concrete always-500 backend, the executor
returns exactly the expected error-content result. -/
theorem getESGInvestments_http_failure_witness :
    getESGInvestments witFailFetch none none =
      ⟨[⟨"text", "Unable to fetch ESG investments: API call failed: 500 Internal Server Error"⟩]⟩ :=
  (getESGInvestments_http_failure witFailFetch none none rfl).1

/-- Claim C3 counterexample: the generateBudgetPlan and trackFinancialGoals
executors wrap generateText in no try/catch, so a thrown model error
propagates to the caller instead of being converted into an error-content
text result. -/
theorem generateBudgetPlan_error_propagates :
    generateBudgetPlan (fun _ _ => Except.error "model oracle failure")
      20000 ["house"] (some 28) none = Except.error "model oracle failure" ∧
    trackFinancialGoals (fun _ _ => Except.error "model oracle failure")
      GoalType.emergency_fund 10000 2000 500 = Except.error "model oracle failure" :=
  ⟨rfl, rfl⟩

/-- Claim C3 (amended): executors that call the backend HTTP API capture a
failed call into an error-content text result (getESGInvestments shown
here), but the executors that call the language model — generateBudgetPlan
and trackFinancialGoals — propagate a thrown generateText error to the
caller unchanged. -/
theorem executor_error_capture_split (generateText : GenOracle)
    (fetch : FetchOracle) (e : String)
    (hgen : ∀ s u, generateText s u = Except.error e)
    (hfetch : (fetch "/api/esg-investments" HttpMethod.GET none).ok = false) :
    (∀ monthlyIncome financialGoals currentAge retirementAge,
      generateBudgetPlan generateText monthlyIncome financialGoals currentAge retirementAge =
        Except.error e) ∧
    (∀ goalType targetAmount currentAmount monthlyContribution,
      trackFinancialGoals generateText goalType targetAmount currentAmount monthlyContribution =
        Except.error e) ∧
    (∀ investmentAmount riskProfile, ∃ rest,
      getESGInvestments fetch investmentAmount riskProfile =
        ⟨[⟨"text", "Unable to fetch ESG investments:" ++ rest⟩]⟩) := by
  refine ⟨?_, ?_, ?_⟩
  · intro mi fg ca ra
    simp only [generateBudgetPlan, hgen]
  · intro gt ta cu mc
    simp only [trackFinancialGoals, hgen]
  · intro ia rp
    refine ⟨" " ++ ("API call failed: " ++
      toString (fetch "/api/esg-investments" HttpMethod.GET none).status ++ " " ++
      (fetch "/api/esg-investments" HttpMethod.GET none).statusText), ?_⟩
    have hb : getESGInvestments fetch ia rp =
        ⟨[⟨"text", "Unable to fetch ESG investments: " ++
            ("API call failed: " ++
             toString (fetch "/api/esg-investments" HttpMethod.GET none).status ++ " " ++
             (fetch "/api/esg-investments" HttpMethod.GET none).statusText)⟩]⟩ := by
      simp [getESGInvestments, callBackendAPI, hfetch]
    rw [hb, show ("Unable to fetch ESG investments: " : String) =
      "Unable to fetch ESG investments:" ++ " " from rfl, String.append_assoc]

/-- Claim C3 witness: the amended statement at the concrete failing
oracles. -/
theorem executor_error_capture_split_witness :
    generateBudgetPlan witFailGen 20000 ["house"] (some 28) none =
      Except.error "model unavailable" :=
  (executor_error_capture_split witFailGen witFailFetch "model unavailable"
    (fun _ _ => rfl) rfl).1 20000 ["house"] (some 28) none

theorem computeProfileComplete_eq (p : UserProfile) :
    computeProfileComplete p =
      (truthyNum p.age && truthyNum p.monthlyIncome &&
        !(p.financialGoals.getD []).isEmpty) := by
  cases hg : p.financialGoals with
  | none => simp [computeProfileComplete, hg]
  | some gs => cases gs <;> simp [computeProfileComplete, hg]

/-- Claim C4: after any call of the local updateUserProfile tool, the
stored isProfileComplete flag equals the pure predicate "age is set and
truthy, and monthlyIncome is set and truthy, and financialGoals is a
non-empty list" over the merged stored profile; concretely, on the fresh
state the call age=28, monthlyIncome=20000, financialGoals=["house"]
yields the flag true, and the same call omitting financialGoals yields
false. -/
theorem updateUserProfile_completeness (state : ChatAgentState)
    (args : UpdateProfileArgs) (p : UserProfile)
    (hp : (updateUserProfile state args).1.userProfile = some p) :
    (updateUserProfile state args).1.isProfileComplete =
      some (truthyNum p.age && truthyNum p.monthlyIncome &&
        !(p.financialGoals.getD []).isEmpty) ∧
    (updateUserProfile initialState
       ⟨some 28, none, some 20000, some ["house"], none⟩).1.isProfileComplete = some true ∧
    (updateUserProfile initialState
       ⟨some 28, none, some 20000, none, none⟩).1.isProfileComplete = some false := by
  refine ⟨?_, by decide, by decide⟩
  simp only [updateUserProfile, Option.some.injEq] at hp
  subst hp
  simp only [updateUserProfile, computeProfileComplete_eq]

/-- Claim C4 witness: the completeness flag at a concrete call equals the
predicate over the concrete merged profile. -/
theorem updateUserProfile_completeness_witness :
    (updateUserProfile initialState
       ⟨some 28, none, some 20000, some ["house"], none⟩).1.isProfileComplete =
      some (truthyNum (some 28) && truthyNum (some 20000) &&
        !((some ["house"] : Option (List String)).getD []).isEmpty) :=
  (updateUserProfile_completeness initialState
    ⟨some 28, none, some 20000, some ["house"], none⟩
    (mergeProfile {} ⟨some 28, none, some 20000, some ["house"], none⟩) rfl).1

/-- Claim C10: in a local updateUserProfile call, an argument that is
omitted or JS-falsy (age=0, monthlyIncome=0, empty-string profession)
leaves the corresponding stored field unchanged; fields not named in the
call are unchanged; a previously stored field is never removed; and the
value 0 can never be stored for age or monthlyIncome. -/
theorem updateUserProfile_frame (state : ChatAgentState) (args : UpdateProfileArgs)
    (p0 p1 : UserProfile)
    (h0 : state.userProfile.getD {} = p0)
    (h1 : (updateUserProfile state args).1.userProfile = some p1) :
    p1 = mergeProfile p0 args ∧
    (truthyNum args.age = false → p1.age = p0.age) ∧
    (truthyNum args.monthlyIncome = false → p1.monthlyIncome = p0.monthlyIncome) ∧
    (truthyStr args.profession = false → p1.profession = p0.profession) ∧
    (args.financialGoals = none → p1.financialGoals = p0.financialGoals) ∧
    (args.riskTolerance = none → p1.riskTolerance = p0.riskTolerance) ∧
    (p0.age.isSome = true → p1.age.isSome = true) ∧
    (p0.profession.isSome = true → p1.profession.isSome = true) ∧
    (p0.monthlyIncome.isSome = true → p1.monthlyIncome.isSome = true) ∧
    (p0.financialGoals.isSome = true → p1.financialGoals.isSome = true) ∧
    (p0.riskTolerance.isSome = true → p1.riskTolerance.isSome = true) ∧
    (p1.age = some 0 → p0.age = some 0) ∧
    (p1.monthlyIncome = some 0 → p0.monthlyIncome = some 0) ∧
    (updateUserProfile state args).1.userName = state.userName := by
  subst h0
  simp only [updateUserProfile, Option.some.injEq] at h1
  subst h1
  refine ⟨rfl, ?_, ?_, ?_, ?_, ?_, ?_, ?_, ?_, ?_, ?_, ?_, ?_, rfl⟩
  · intro hf; simp [mergeProfile, hf]
  · intro hf; simp [mergeProfile, hf]
  · intro hf; simp [mergeProfile, hf]
  · intro hf; simp [mergeProfile, hf]
  · intro hf; simp [mergeProfile, hf]
  · intro hs
    cases hta : truthyNum args.age with
    | false => simpa [mergeProfile, hta] using hs
    | true =>
      cases ha : args.age with
      | none => rw [ha] at hta; cases hta
      | some a => rw [ha] at hta; simp [mergeProfile, hta, ha]
  · intro hs
    cases htp : truthyStr args.profession with
    | false => simpa [mergeProfile, htp] using hs
    | true =>
      cases hq : args.profession with
      | none => rw [hq] at htp; cases htp
      | some q => rw [hq] at htp; simp [mergeProfile, htp, hq]
  · intro hs
    cases htm : truthyNum args.monthlyIncome with
    | false => simpa [mergeProfile, htm] using hs
    | true =>
      cases hm : args.monthlyIncome with
      | none => rw [hm] at htm; cases htm
      | some m => rw [hm] at htm; simp [mergeProfile, htm, hm]
  · intro hs
    cases hg : args.financialGoals with
    | none => simpa [mergeProfile, hg] using hs
    | some gs => simp [mergeProfile, hg]
  · intro hs
    cases hr : args.riskTolerance with
    | none => simpa [mergeProfile, hr] using hs
    | some r => simp [mergeProfile, hr]
  · intro hz
    cases hta : truthyNum args.age with
    | false => simpa [mergeProfile, hta] using hz
    | true =>
      rw [show (mergeProfile (state.userProfile.getD {}) args).age = args.age by
        simp [mergeProfile, hta]] at hz
      rw [hz] at hta
      simp [truthyNum] at hta
  · intro hz
    cases htm : truthyNum args.monthlyIncome with
    | false => simpa [mergeProfile, htm] using hz
    | true =>
      rw [show (mergeProfile (state.userProfile.getD {}) args).monthlyIncome =
        args.monthlyIncome by simp [mergeProfile, htm]] at hz
      rw [hz] at htm
      simp [truthyNum] at htm

/-- Claim C10 witness: calling with the falsy age 0 on the fresh state
leaves the stored age unchanged (absent). -/
theorem updateUserProfile_frame_witness :
    (mergeProfile (initialState.userProfile.getD {}) witZeroArgs).age =
      (initialState.userProfile.getD {}).age :=
  (updateUserProfile_frame initialState witZeroArgs
    (initialState.userProfile.getD {})
    (mergeProfile (initialState.userProfile.getD {}) witZeroArgs)
    rfl rfl).2.1 (by decide)

/-- Claim C7 counterexample: getUserInfo performs no mutation of the
session state — executed on the initial state it returns the state
unchanged (its source body only reads this.state), refuting that every
one of the three local tools mutates SessionState when executed. -/
theorem getUserInfo_does_not_mutate :
    (getUserInfo initialState).1 = initialState :=
  rfl

/-- Claim C7 (amended): exactly three local tools are defined in the chat
agent; updateUserProfile and setUserName mutate the session state as a
side effect and return a confirmation text, while getUserInfo returns a
report text but always leaves the state unchanged. -/
theorem local_tools_effects :
    chatAgentToolNames.length = 3 ∧
    (∀ state : ChatAgentState, (getUserInfo state).1 = state) ∧
    (∀ (state : ChatAgentState) (name : String),
      (setUserName state name).1 = { state with userName := some name }) ∧
    (∀ (state : ChatAgentState) (args : UpdateProfileArgs),
      (updateUserProfile state args).1 =
        { state with
            userProfile := some (mergeProfile (state.userProfile.getD {}) args),
            isProfileComplete :=
              some (computeProfileComplete (mergeProfile (state.userProfile.getD {}) args)) }) ∧
    (∀ state : ChatAgentState, (getUserInfo state).2.content.length = 1) ∧
    (∀ (state : ChatAgentState) (name : String),
      (setUserName state name).2.content.length = 1) ∧
    (∀ (state : ChatAgentState) (args : UpdateProfileArgs),
      (updateUserProfile state args).2.content.length = 1) :=
  ⟨rfl, fun _ => rfl, fun _ _ => rfl, fun _ _ => rfl,
   fun _ => rfl, fun _ _ => rfl, fun _ _ => rfl⟩

/-- Claim C5 counterexample: the tool name updateUserProfile is defined
both locally in the chat agent and on the MCP server, yet merging the two
maps raises no DuplicateToolName error: the spread silently resolves the
name to the MCP server definition, discarding the local one. -/
theorem allTools_collision_silently_overridden :
    chatAgentToolNames.contains "updateUserProfile" = true ∧
    mcpServerToolNames.contains "updateUserProfile" = true ∧
    allTools chatAgentToolMap mcpServerToolMap "updateUserProfile" =
      some ToolOrigin.mcpServer ∧
    ¬ allTools chatAgentToolMap mcpServerToolMap "updateUserProfile" =
      some ToolOrigin.chatAgent := by
  refine ⟨by decide, by decide, by decide, by decide⟩

/-- Claim C5 (amended): merging the local chat-agent tools with the
MCP-discovered tools is the right-biased object spread: it never fails; on
a name collision the remotely discovered definition silently replaces the
local one, and a name absent from the MCP set resolves to the local
definition; in particular updateUserProfile resolves to the MCP server
definition. -/
theorem allTools_spread_semantics
    (a b : List (String × ToolOrigin)) (n : String) (d : ToolOrigin)
    (hb : b.lookup n = some d) :
    allTools a b n = some d ∧
    (∀ (a2 b2 : List (String × ToolOrigin)) (n2 : String),
      b2.lookup n2 = none → allTools a2 b2 n2 = a2.lookup n2) ∧
    allTools chatAgentToolMap mcpServerToolMap "updateUserProfile" =
      some ToolOrigin.mcpServer := by
  refine ⟨?_, ?_, by decide⟩
  · simp [allTools, hb]
  · intro a2 b2 n2 hb2
    simp [allTools, hb2]

/-- Claim C5 witness: the amended statement at the concrete collision. -/
theorem allTools_spread_semantics_witness :
    allTools chatAgentToolMap mcpServerToolMap "updateUserProfile" =
      some ToolOrigin.mcpServer :=
  (allTools_spread_semantics chatAgentToolMap mcpServerToolMap
    "updateUserProfile" ToolOrigin.mcpServer (by decide)).1

/-- Claim C1: with the confirmation flags derived from the
TOOLS_REQURING_CONFIRMATION list, a Reconciler pass never invokes the
executor of any tool on that list (such calls are surfaced unresolved);
while any call of a listed tool in the transcript is in state "call", the
chat input textarea and the send button are disabled, and the Turn Driver
suspends after the model request that produced the pending call, issuing
no further model request. -/
theorem confirmation_required_gate
    (confirmList : List String) (tools : List (String × (Json → ToolResult)))
    (messages : List Message) (out : ReconcileOut (List Message))
    (agentInput : String)
    (hok : processToolCalls (mkRegistry confirmList tools) messages = .ok out) :
    (∀ n ∈ out.executed, confirmList.contains n = false) ∧
    (pendingToolCallConfirmation confirmList messages = true →
      textareaDisabled confirmList messages = true ∧
      sendButtonDisabled confirmList messages agentInput = true) ∧
    (∀ (oracle : ModelOracle) (fuel : Nat) (t : List Message)
        (r : ReconcileOut (List Message)),
      hasToolCalls (oracle t) = true →
      processToolCalls (mkRegistry confirmList tools) (t ++ [oracle t]) = .ok r →
      r.pendingHuman ≠ 0 →
      driveTurn oracle (mkRegistry confirmList tools) (fuel + 1) t = .ok (r.updated, 1)) := by
  refine ⟨?_, ?_, ?_⟩
  · intro n hn
    obtain ⟨spec, hlk, hflag⟩ :=
      processToolCalls_executed (mkRegistry confirmList tools) messages out hok n hn
    rw [← mkRegistry_flag confirmList tools n spec hlk]
    exact hflag
  · intro hp
    refine ⟨hp, ?_⟩
    simp [sendButtonDisabled, hp]
  · intro oracle fuel t r h1 h2 h3
    exact driveTurn_suspend oracle (mkRegistry confirmList tools) fuel t r h1 h2 h3

/-- Claim C1 witness: on a concrete transcript holding one pending call of
the listed tool transferFunds, the reconciled pass executes nothing and
the input controls are disabled. -/
theorem confirmation_required_gate_witness :
    textareaDisabled witConfirmList witMessages = true ∧
    sendButtonDisabled witConfirmList witMessages "" = true :=
  (confirmation_required_gate witConfirmList witTools witMessages
    ⟨witMessages, [], 1⟩ "" rfl).2.1 (by decide)

/-- Claim C6: the Reconciler is idempotent — a second processToolCalls
pass over the transcript produced by a first successful pass, with no new
human input, returns that transcript unchanged with the same count of
calls awaiting human input, and its executed-tools list is empty: a call
already carrying a result is never re-executed. -/
theorem processToolCalls_idempotent (registry : ToolRegistry)
    (T : List Message) (out : ReconcileOut (List Message))
    (h : processToolCalls registry T = .ok out) :
    processToolCalls registry out.updated =
      .ok ⟨out.updated, [], out.pendingHuman⟩ := by
  induction T generalizing out with
  | nil =>
    simp only [processToolCalls] at h
    injection h with h
    subst h
    rfl
  | cons m ms ih =>
    simp only [processToolCalls] at h
    cases h1 : reconcileMessage registry m with
    | error e => rw [h1] at h; cases h
    | ok r1 =>
      rw [h1] at h
      cases h2 : processToolCalls registry ms with
      | error e => rw [h2] at h; cases h
      | ok r2 =>
        rw [h2] at h
        injection h with h
        subst h
        simp only [processToolCalls, reconcileMessage_idem registry m r1 h1, ih r2 h2,
          List.nil_append]

/-- Claim C6 witness: after a concrete transcript with one auto-runnable
call is reconciled once, the second pass returns it unchanged, executes
nothing, and reports zero pending calls. -/
theorem processToolCalls_idempotent_witness :
    processToolCalls (mkRegistry witConfirmList witTools) witAutoResolved =
      .ok ⟨witAutoResolved, [], 0⟩ :=
  processToolCalls_idempotent (mkRegistry witConfirmList witTools) witAutoMessages
    ⟨witAutoResolved, ["getUserInfo"], 0⟩ rfl

/-- Claim C9: the Turn Driver loop is bounded — the maxSteps configuration
is 100 in the chat agent and 10 in the UI hook; a run with step budget
fuel issues at most fuel model requests (in particular at most
maxStepsChatAgent requests when configured from chat.ts), so the loop
terminates even if the model requests tools on every step; and when the
model stops requesting tools the driver issues exactly one request. -/
theorem turn_loop_bounded :
    maxStepsChatAgent = 100 ∧ maxStepsUseAgentChat = 10 ∧
    (∀ (oracle : ModelOracle) (registry : ToolRegistry) (fuel : Nat)
        (t t' : List Message) (n : Nat),
      driveTurn oracle registry fuel t = .ok (t', n) → n ≤ fuel) ∧
    (∀ (oracle : ModelOracle) (registry : ToolRegistry)
        (t t' : List Message) (n : Nat),
      driveTurn oracle registry maxStepsChatAgent t = .ok (t', n) →
        n ≤ maxStepsChatAgent) ∧
    (∀ (oracle : ModelOracle) (registry : ToolRegistry) (fuel : Nat)
        (t : List Message),
      hasToolCalls (oracle t) = false →
      driveTurn oracle registry (fuel + 1) t = .ok (t ++ [oracle t], 1)) :=
  ⟨rfl, rfl,
   fun oracle registry fuel t t' n h => driveTurn_le oracle registry fuel t t' n h,
   fun oracle registry t t' n h =>
     driveTurn_le oracle registry maxStepsChatAgent t t' n h,
   fun oracle registry fuel t h => driveTurn_done oracle registry fuel t h⟩

/-- Claim C9 witness: a concrete text-only turn issues exactly one model
request within the chat-agent step budget. -/
theorem turn_loop_bounded_witness :
    driveTurn witTextOracle [] maxStepsChatAgent [] =
      .ok ([] ++ [witTextOracle []], 1) :=
  turn_loop_bounded.2.2.2.2 witTextOracle [] 99 [] rfl
